import Mathlib

/-!
Verification of the RDF term algebra of `src/lib/src/model/triple.rs`
(the owned/borrowed duality of NamedOrBlankNode, Term, Triple, GraphName
and Quad, their conversions, Display delegation and derived equality and
hashing), as a shallow embedding in Lean 4.

The three primitive node kinds (NamedNode, BlankNode, Literal) and the
external rio interchange formatter live outside the verified file; they
are modelled from the specification where noted.
-/

/-- Modelled from the spec: the owned identifier (IRI) node primitive of
`crate::model::named_node`, absent from the verified sources. The spec
treats it as an already-validated value with an owned/borrowed pair. -/
structure NamedNode where
  iri : String
deriving DecidableEq

/-- Modelled from the spec: the borrowed view of a `NamedNode`. Lifetimes
are erased in the embedding; the view carries the same textual payload. -/
structure NamedNodeRef where
  iri : String
deriving DecidableEq

/-- Modelled from the spec: the owned anonymous (blank) node primitive. -/
structure BlankNode where
  id : String
deriving DecidableEq

/-- Modelled from the spec: the borrowed view of a `BlankNode`. -/
structure BlankNodeRef where
  id : String
deriving DecidableEq

/-- Modelled from the spec: the owned literal primitive, a string plus an
optional language tag or datatype (spec glossary). -/
structure Literal where
  value : String
  language : Option String
  datatype : Option String
deriving DecidableEq

/-- Modelled from the spec: the borrowed view of a `Literal`. -/
structure LiteralRef where
  value : String
  language : Option String
  datatype : Option String
deriving DecidableEq

/-- Modelled from the spec: `NamedNode::as_ref`, a payload-preserving view. -/
def NamedNode.as_ref (node : NamedNode) : NamedNodeRef :=
  ⟨node.iri⟩

/-- Modelled from the spec: `NamedNodeRef::into_owned`, a payload-preserving copy. -/
def NamedNodeRef.into_owned (node : NamedNodeRef) : NamedNode :=
  ⟨node.iri⟩

/-- Modelled from the spec: `BlankNode::as_ref`. -/
def BlankNode.as_ref (node : BlankNode) : BlankNodeRef :=
  ⟨node.id⟩

/-- Modelled from the spec: `BlankNodeRef::into_owned`. -/
def BlankNodeRef.into_owned (node : BlankNodeRef) : BlankNode :=
  ⟨node.id⟩

/-- Modelled from the spec: `Literal::as_ref`. -/
def Literal.as_ref (literal : Literal) : LiteralRef :=
  ⟨literal.value, literal.language, literal.datatype⟩

/-- Modelled from the spec: `LiteralRef::into_owned`. -/
def LiteralRef.into_owned (literal : LiteralRef) : Literal :=
  ⟨literal.value, literal.language, literal.datatype⟩

/-- The owned union of IRIs and blank nodes (`enum NamedOrBlankNode`,
triple.rs lines 9-13). -/
inductive NamedOrBlankNode where
  | NamedNode (node : NamedNode)
  | BlankNode (node : BlankNode)
deriving DecidableEq

/-- The borrowed union of IRIs and blank nodes (`enum NamedOrBlankNodeRef`,
triple.rs lines 63-67). -/
inductive NamedOrBlankNodeRef where
  | NamedNode (node : NamedNodeRef)
  | BlankNode (node : BlankNodeRef)
deriving DecidableEq

/-- `NamedOrBlankNode::as_ref` (triple.rs lines 24-29). -/
def NamedOrBlankNode.as_ref : NamedOrBlankNode → NamedOrBlankNodeRef
  | .NamedNode node => .NamedNode node.as_ref
  | .BlankNode node => .BlankNode node.as_ref

/-- `NamedOrBlankNodeRef::into_owned` (triple.rs lines 84-89). -/
def NamedOrBlankNodeRef.into_owned : NamedOrBlankNodeRef → NamedOrBlankNode
  | .NamedNode node => .NamedNode node.into_owned
  | .BlankNode node => .BlankNode node.into_owned

/-- `NamedOrBlankNodeRef::is_named_node` (triple.rs lines 70-75). -/
def NamedOrBlankNodeRef.is_named_node : NamedOrBlankNodeRef → Bool
  | .NamedNode _ => true
  | .BlankNode _ => false

/-- `NamedOrBlankNodeRef::is_blank_node` (triple.rs lines 77-82). -/
def NamedOrBlankNodeRef.is_blank_node : NamedOrBlankNodeRef → Bool
  | .NamedNode _ => false
  | .BlankNode _ => true

/-- `NamedOrBlankNode::is_named_node`, delegating to the view (lines 16-18). -/
def NamedOrBlankNode.is_named_node (node : NamedOrBlankNode) : Bool :=
  node.as_ref.is_named_node

/-- `NamedOrBlankNode::is_blank_node`, delegating to the view (lines 20-22). -/
def NamedOrBlankNode.is_blank_node (node : NamedOrBlankNode) : Bool :=
  node.as_ref.is_blank_node

/-- The owned RDF term union (`enum Term`, triple.rs lines 148-153). -/
inductive Term where
  | NamedNode (node : NamedNode)
  | BlankNode (node : BlankNode)
  | Literal (literal : Literal)
deriving DecidableEq

/-- The borrowed RDF term union (`enum TermRef`, triple.rs lines 236-241). -/
inductive TermRef where
  | NamedNode (node : NamedNodeRef)
  | BlankNode (node : BlankNodeRef)
  | Literal (literal : LiteralRef)
deriving DecidableEq

/-- `Term::as_ref` (triple.rs lines 168-174). -/
def Term.as_ref : Term → TermRef
  | .NamedNode node => .NamedNode node.as_ref
  | .BlankNode node => .BlankNode node.as_ref
  | .Literal literal => .Literal literal.as_ref

/-- `TermRef::into_owned` (triple.rs lines 265-271). -/
def TermRef.into_owned : TermRef → Term
  | .NamedNode node => .NamedNode node.into_owned
  | .BlankNode node => .BlankNode node.into_owned
  | .Literal literal => .Literal literal.into_owned

/-- `TermRef::is_named_node` (triple.rs lines 244-249). -/
def TermRef.is_named_node : TermRef → Bool
  | .NamedNode _ => true
  | _ => false

/-- `TermRef::is_blank_node` (triple.rs lines 251-256). -/
def TermRef.is_blank_node : TermRef → Bool
  | .BlankNode _ => true
  | _ => false

/-- `TermRef::is_literal` (triple.rs lines 258-263). -/
def TermRef.is_literal : TermRef → Bool
  | .Literal _ => true
  | _ => false

/-- `Term::is_literal`, delegating to the view (triple.rs lines 164-166). -/
def Term.is_literal (term : Term) : Bool :=
  term.as_ref.is_literal

/-- `From<NamedOrBlankNode> for Term` (triple.rs lines 219-226): each
variant is injected through the corresponding `From` impl. -/
def Term.fromNamedOrBlankNode : NamedOrBlankNode → Term
  | .NamedNode node => .NamedNode node
  | .BlankNode node => .BlankNode node

/-- `From<NamedOrBlankNodeRef> for TermRef` (triple.rs lines 320-327). -/
def TermRef.fromNamedOrBlankNodeRef : NamedOrBlankNodeRef → TermRef
  | .NamedNode node => .NamedNode node
  | .BlankNode node => .BlankNode node

/-- The possible owned graph name (`enum GraphName`, triple.rs lines 515-520). -/
inductive GraphName where
  | NamedNode (node : NamedNode)
  | BlankNode (node : BlankNode)
  | DefaultGraph
deriving DecidableEq

/-- The possible borrowed graph name (`enum GraphNameRef`, triple.rs
lines 611-616). -/
inductive GraphNameRef where
  | NamedNode (node : NamedNodeRef)
  | BlankNode (node : BlankNodeRef)
  | DefaultGraph
deriving DecidableEq

/-- `GraphName::as_ref` (triple.rs lines 535-541). -/
def GraphName.as_ref : GraphName → GraphNameRef
  | .NamedNode node => .NamedNode node.as_ref
  | .BlankNode node => .BlankNode node.as_ref
  | .DefaultGraph => .DefaultGraph

/-- `GraphNameRef::into_owned` (triple.rs lines 640-646). -/
def GraphNameRef.into_owned : GraphNameRef → GraphName
  | .NamedNode node => .NamedNode node.into_owned
  | .BlankNode node => .BlankNode node.into_owned
  | .DefaultGraph => .DefaultGraph

/-- `GraphNameRef::is_default_graph` (triple.rs lines 633-638). -/
def GraphNameRef.is_default_graph : GraphNameRef → Bool
  | .DefaultGraph => true
  | _ => false

/-- `GraphName::is_default_graph`, delegating to the view (lines 531-533). -/
def GraphName.is_default_graph (name : GraphName) : Bool :=
  name.as_ref.is_default_graph

/-- `From<NamedOrBlankNode> for GraphName` (triple.rs lines 574-581). -/
def GraphName.fromNamedOrBlankNode : NamedOrBlankNode → GraphName
  | .NamedNode node => .NamedNode node
  | .BlankNode node => .BlankNode node

/-- `From<Option<NamedOrBlankNode>> for GraphName` (triple.rs lines
589-597): `Some` goes through the variant injection, `None` becomes the
default graph. -/
def GraphName.fromOptionNamedOrBlankNode : Option NamedOrBlankNode → GraphName
  | some node => GraphName.fromNamedOrBlankNode node
  | none => .DefaultGraph

/-- `From<GraphName> for Option<NamedOrBlankNode>` (triple.rs lines 599-607). -/
def GraphName.toOptionNamedOrBlankNode : GraphName → Option NamedOrBlankNode
  | .NamedNode node => some (.NamedNode node)
  | .BlankNode node => some (.BlankNode node)
  | .DefaultGraph => none

/-- `From<NamedOrBlankNodeRef> for GraphNameRef` (triple.rs lines 683-690). -/
def GraphNameRef.fromNamedOrBlankNodeRef : NamedOrBlankNodeRef → GraphNameRef
  | .NamedNode node => .NamedNode node
  | .BlankNode node => .BlankNode node

/-- `From<Option<NamedOrBlankNodeRef>> for GraphNameRef` (triple.rs lines
710-718). -/
def GraphNameRef.fromOptionNamedOrBlankNodeRef :
    Option NamedOrBlankNodeRef → GraphNameRef
  | some node => GraphNameRef.fromNamedOrBlankNodeRef node
  | none => .DefaultGraph

/-- `From<GraphNameRef> for Option<NamedOrBlankNodeRef>` (triple.rs lines
720-728). -/
def GraphNameRef.toOptionNamedOrBlankNodeRef :
    GraphNameRef → Option NamedOrBlankNodeRef
  | .NamedNode node => some (.NamedNode node)
  | .BlankNode node => some (.BlankNode node)
  | .DefaultGraph => none

/-- C1: `GraphName` is isomorphic to `Option<NamedOrBlankNode>`. Both
round trips are the identity, `None` maps to `DefaultGraph`, and `Some`
maps to the variant carrying the same payload. -/
theorem graphName_option_isomorphism :
    (∀ o : Option NamedOrBlankNode,
      GraphName.toOptionNamedOrBlankNode (GraphName.fromOptionNamedOrBlankNode o) = o) ∧
    (∀ g : GraphName,
      GraphName.fromOptionNamedOrBlankNode (GraphName.toOptionNamedOrBlankNode g) = g) ∧
    GraphName.fromOptionNamedOrBlankNode none = GraphName.DefaultGraph ∧
    (∀ n : NamedNode,
      GraphName.fromOptionNamedOrBlankNode (some (.NamedNode n)) = GraphName.NamedNode n) ∧
    (∀ b : BlankNode,
      GraphName.fromOptionNamedOrBlankNode (some (.BlankNode b)) = GraphName.BlankNode b) := by
  refine ⟨?_, ?_, rfl, fun n => rfl, fun b => rfl⟩
  · rintro (_ | (n | b)) <;> rfl
  · rintro (n | b | _) <;> rfl

/-- An owned RDF triple (`struct Triple`, triple.rs lines 358-368). -/
structure Triple where
  subject : NamedOrBlankNode
  predicate : NamedNode
  object : Term
deriving DecidableEq

/-- A borrowed RDF triple (`struct TripleRef`, triple.rs lines 440-450). -/
structure TripleRef where
  subject : NamedOrBlankNodeRef
  predicate : NamedNodeRef
  object : TermRef
deriving DecidableEq

/-- An owned triple in an RDF dataset (`struct Quad`, triple.rs lines
741-754). -/
structure Quad where
  subject : NamedOrBlankNode
  predicate : NamedNode
  object : Term
  graph_name : GraphName
deriving DecidableEq

/-- A borrowed triple in an RDF dataset (`struct QuadRef`, triple.rs
lines 849-862). -/
structure QuadRef where
  subject : NamedOrBlankNodeRef
  predicate : NamedNodeRef
  object : TermRef
  graph_name : GraphNameRef
deriving DecidableEq

/-- `Triple::new` (triple.rs lines 372-382). The Rust constructor is
generic over `impl Into<...>` arguments; the embedding instantiates it at
the exact field types, where `Into` is the identity conversion. -/
def Triple.new (subject : NamedOrBlankNode) (predicate : NamedNode)
    (object : Term) : Triple :=
  ⟨subject, predicate, object⟩

/-- `Triple::in_graph` (triple.rs lines 415-422), instantiated at
`graph_name : GraphName` where `Into` is the identity. -/
def Triple.in_graph (t : Triple) (graph_name : GraphName) : Quad :=
  ⟨t.subject, t.predicate, t.object, graph_name⟩

/-- `Triple::as_ref` (triple.rs lines 424-430). -/
def Triple.as_ref (t : Triple) : TripleRef :=
  ⟨t.subject.as_ref, t.predicate.as_ref, t.object.as_ref⟩

/-- `TripleRef::new` (triple.rs lines 454-464). -/
def TripleRef.new (subject : NamedOrBlankNodeRef) (predicate : NamedNodeRef)
    (object : TermRef) : TripleRef :=
  ⟨subject, predicate, object⟩

/-- `TripleRef::in_graph` (triple.rs lines 467-474). -/
def TripleRef.in_graph (t : TripleRef) (graph_name : GraphNameRef) : QuadRef :=
  ⟨t.subject, t.predicate, t.object, graph_name⟩

/-- `TripleRef::into_owned` (triple.rs lines 476-482). -/
def TripleRef.into_owned (t : TripleRef) : Triple :=
  ⟨t.subject.into_owned, t.predicate.into_owned, t.object.into_owned⟩

/-- `Quad::new` (triple.rs lines 758-770), instantiated at the exact
field types. -/
def Quad.new (subject : NamedOrBlankNode) (predicate : NamedNode)
    (object : Term) (graph_name : GraphName) : Quad :=
  ⟨subject, predicate, object, graph_name⟩

/-- `Quad::as_ref` (triple.rs lines 822-829). -/
def Quad.as_ref (q : Quad) : QuadRef :=
  ⟨q.subject.as_ref, q.predicate.as_ref, q.object.as_ref, q.graph_name.as_ref⟩

/-- `QuadRef::new` (triple.rs lines 866-878). -/
def QuadRef.new (subject : NamedOrBlankNodeRef) (predicate : NamedNodeRef)
    (object : TermRef) (graph_name : GraphNameRef) : QuadRef :=
  ⟨subject, predicate, object, graph_name⟩

/-- `QuadRef::into_owned` (triple.rs lines 880-887). -/
def QuadRef.into_owned (q : QuadRef) : Quad :=
  ⟨q.subject.into_owned, q.predicate.into_owned, q.object.into_owned,
    q.graph_name.into_owned⟩

/-- `From<Quad> for Triple` (triple.rs lines 838-846): drops `graph_name`
and keeps the three other fields unchanged. -/
def Triple.fromQuad (quad : Quad) : Triple :=
  ⟨quad.subject, quad.predicate, quad.object⟩

/-- `From<QuadRef> for TripleRef` (triple.rs lines 896-904). -/
def TripleRef.fromQuadRef (quad : QuadRef) : TripleRef :=
  ⟨quad.subject, quad.predicate, quad.object⟩

/-- Deprecated `Triple::subject` accessor (triple.rs lines 384-387);
references are erased in the embedding, so it yields the field value. -/
def Triple.subjectAccessor (t : Triple) : NamedOrBlankNode :=
  t.subject

/-- Deprecated `Triple::subject_owned` (triple.rs lines 389-392). -/
def Triple.subject_owned (t : Triple) : NamedOrBlankNode :=
  t.subject

/-- Deprecated `Triple::predicate` accessor (triple.rs lines 394-397). -/
def Triple.predicateAccessor (t : Triple) : NamedNode :=
  t.predicate

/-- Deprecated `Triple::predicate_owned` (triple.rs lines 399-402). -/
def Triple.predicate_owned (t : Triple) : NamedNode :=
  t.predicate

/-- Deprecated `Triple::object` accessor (triple.rs lines 404-407). -/
def Triple.objectAccessor (t : Triple) : Term :=
  t.object

/-- Deprecated `Triple::object_owned` (triple.rs lines 409-412). -/
def Triple.object_owned (t : Triple) : Term :=
  t.object

/-- Deprecated `Quad::subject` accessor (triple.rs lines 772-775). -/
def Quad.subjectAccessor (q : Quad) : NamedOrBlankNode :=
  q.subject

/-- Deprecated `Quad::subject_owned` (triple.rs lines 777-780). -/
def Quad.subject_owned (q : Quad) : NamedOrBlankNode :=
  q.subject

/-- Deprecated `Quad::predicate` accessor (triple.rs lines 782-785). -/
def Quad.predicateAccessor (q : Quad) : NamedNode :=
  q.predicate

/-- Deprecated `Quad::predicate_owned` (triple.rs lines 787-790). -/
def Quad.predicate_owned (q : Quad) : NamedNode :=
  q.predicate

/-- Deprecated `Quad::object` accessor (triple.rs lines 792-795). -/
def Quad.objectAccessor (q : Quad) : Term :=
  q.object

/-- Deprecated `Quad::object_owned` (triple.rs lines 797-800). -/
def Quad.object_owned (q : Quad) : Term :=
  q.object

/-- Deprecated `Quad::graph_name` accessor (triple.rs lines 802-805). -/
def Quad.graphNameAccessor (q : Quad) : GraphName :=
  q.graph_name

/-- Deprecated `Quad::graph_name_owned` (triple.rs lines 807-810). -/
def Quad.graph_name_owned (q : Quad) : GraphName :=
  q.graph_name

/-- Deprecated `Quad::into_triple` (triple.rs lines 812-815), defined in
the source as `Triple::new(self.subject, self.predicate, self.object)`. -/
def Quad.into_triple (q : Quad) : Triple :=
  Triple.new q.subject q.predicate q.object

/-- Deprecated `Quad::destruct` (triple.rs lines 817-820). -/
def Quad.destruct (q : Quad) : NamedOrBlankNode × NamedNode × Term × GraphName :=
  (q.subject, q.predicate, q.object, q.graph_name)

/-- C2: attaching a graph name with `in_graph` and stripping it with the
`Quad` to `Triple` conversion returns the original triple, and the three
retained fields are carried over unchanged. -/
theorem triple_in_graph_roundtrip :
    (∀ (t : Triple) (g : GraphName), Triple.fromQuad (t.in_graph g) = t) ∧
    (∀ q : Quad, (Triple.fromQuad q).subject = q.subject ∧
      (Triple.fromQuad q).predicate = q.predicate ∧
      (Triple.fromQuad q).object = q.object) :=
  ⟨fun _ _ => rfl, fun _ => ⟨rfl, rfl, rfl⟩⟩

/-- C5: the widening `NamedOrBlankNode` to `Term` conversion preserves the
active variant and payload exactly, and the result is never a literal. -/
theorem term_from_namedOrBlankNode_widening :
    (∀ n : NamedNode,
      Term.fromNamedOrBlankNode (.NamedNode n) = Term.NamedNode n) ∧
    (∀ b : BlankNode,
      Term.fromNamedOrBlankNode (.BlankNode b) = Term.BlankNode b) ∧
    (∀ x : NamedOrBlankNode, (Term.fromNamedOrBlankNode x).is_literal = false) := by
  refine ⟨fun n => rfl, fun b => rfl, ?_⟩
  rintro (n | b) <;> rfl

/-- C9: the `GraphNameRef` and `Option<NamedOrBlankNodeRef>` conversions
are mutually inverse at the borrowed level, with `None` corresponding to
`GraphNameRef::DefaultGraph`. -/
theorem graphNameRef_option_isomorphism :
    (∀ o : Option NamedOrBlankNodeRef,
      GraphNameRef.toOptionNamedOrBlankNodeRef
        (GraphNameRef.fromOptionNamedOrBlankNodeRef o) = o) ∧
    (∀ g : GraphNameRef,
      GraphNameRef.fromOptionNamedOrBlankNodeRef
        (GraphNameRef.toOptionNamedOrBlankNodeRef g) = g) ∧
    GraphNameRef.fromOptionNamedOrBlankNodeRef none = GraphNameRef.DefaultGraph := by
  refine ⟨?_, ?_, rfl⟩
  · rintro (_ | (n | b)) <;> rfl
  · rintro (n | b | _) <;> rfl

/-- C10: the deprecated legacy accessors agree exactly with direct field
access: `into_triple` coincides with the `Quad` to `Triple` conversion,
`destruct` returns the four fields in order, and every deprecated getter
returns the corresponding public field. -/
theorem deprecated_accessors_agree_with_fields :
    (∀ q : Quad, q.into_triple = Triple.fromQuad q) ∧
    (∀ q : Quad, q.destruct = (q.subject, q.predicate, q.object, q.graph_name)) ∧
    (∀ t : Triple, t.subjectAccessor = t.subject ∧ t.subject_owned = t.subject ∧
      t.predicateAccessor = t.predicate ∧ t.predicate_owned = t.predicate ∧
      t.objectAccessor = t.object ∧ t.object_owned = t.object) ∧
    (∀ q : Quad, q.subjectAccessor = q.subject ∧ q.subject_owned = q.subject ∧
      q.predicateAccessor = q.predicate ∧ q.predicate_owned = q.predicate ∧
      q.objectAccessor = q.object ∧ q.object_owned = q.object ∧
      q.graphNameAccessor = q.graph_name ∧ q.graph_name_owned = q.graph_name) :=
  ⟨fun _ => rfl, fun _ => rfl,
    fun _ => ⟨rfl, rfl, rfl, rfl, rfl, rfl⟩,
    fun _ => ⟨rfl, rfl, rfl, rfl, rfl, rfl, rfl, rfl⟩⟩

/-- C7: every operation of the core is total and non-failing. In the
embedding each constructor and conversion is a total function; the
constructors return a value whose fields are exactly the inputs, and
`in_graph` is the total structural combination of a triple and a graph
name, never an error. -/
theorem core_operations_total :
    (∀ (s : NamedOrBlankNode) (p : NamedNode) (o : Term),
      Triple.new s p o = ⟨s, p, o⟩) ∧
    (∀ (s : NamedOrBlankNode) (p : NamedNode) (o : Term) (g : GraphName),
      Quad.new s p o g = ⟨s, p, o, g⟩) ∧
    (∀ (s : NamedOrBlankNodeRef) (p : NamedNodeRef) (o : TermRef),
      TripleRef.new s p o = ⟨s, p, o⟩) ∧
    (∀ (s : NamedOrBlankNodeRef) (p : NamedNodeRef) (o : TermRef)
      (g : GraphNameRef), QuadRef.new s p o g = ⟨s, p, o, g⟩) ∧
    (∀ (t : Triple) (g : GraphName),
      t.in_graph g = Quad.new t.subject t.predicate t.object g) ∧
    (∀ (t : TripleRef) (g : GraphNameRef),
      t.in_graph g = QuadRef.new t.subject t.predicate t.object g) ∧
    (∀ t : Triple, t.as_ref = ⟨t.subject.as_ref, t.predicate.as_ref, t.object.as_ref⟩) ∧
    (∀ t : TripleRef, t.into_owned =
      ⟨t.subject.into_owned, t.predicate.into_owned, t.object.into_owned⟩) ∧
    (∀ q : Quad, q.as_ref =
      ⟨q.subject.as_ref, q.predicate.as_ref, q.object.as_ref, q.graph_name.as_ref⟩) ∧
    (∀ q : QuadRef, q.into_owned =
      ⟨q.subject.into_owned, q.predicate.into_owned, q.object.into_owned,
        q.graph_name.into_owned⟩) :=
  ⟨fun _ _ _ => rfl, fun _ _ _ _ => rfl, fun _ _ _ => rfl, fun _ _ _ _ => rfl,
    fun _ _ => rfl, fun _ _ => rfl, fun _ => rfl, fun _ => rfl, fun _ => rfl,
    fun _ => rfl⟩

/-- Modelled from the spec: textual rendering of a borrowed IRI node per
the interchange grammar scenario of the spec, angle-bracketed IRI. -/
def NamedNodeRef.display (node : NamedNodeRef) : String :=
  "<" ++ node.iri ++ ">"

/-- Modelled from the spec: the owned IRI node renders as its view. -/
def NamedNode.display (node : NamedNode) : String :=
  node.as_ref.display

/-- Modelled from the spec: textual rendering of a borrowed blank node,
an underscore-colon prefixed identifier. -/
def BlankNodeRef.display (node : BlankNodeRef) : String :=
  "_:" ++ node.id

/-- Modelled from the spec: the owned blank node renders as its view. -/
def BlankNode.display (node : BlankNode) : String :=
  node.as_ref.display

/-- Modelled from the spec: textual rendering of a borrowed literal, the
quoted value followed by an optional language tag or datatype suffix. -/
def LiteralRef.display (literal : LiteralRef) : String :=
  "\"" ++ literal.value ++ "\"" ++
    (match literal.language with
      | some tag => "@" ++ tag
      | none =>
        match literal.datatype with
          | some dt => "^^<" ++ dt ++ ">"
          | none => "")

/-- Modelled from the spec: the owned literal renders as its view. -/
def Literal.display (literal : Literal) : String :=
  literal.as_ref.display

/-- Modelled from the spec: the rio interchange IRI node. -/
structure RioNamedNode where
  iri : String
deriving DecidableEq

/-- Modelled from the spec: the rio interchange blank node. -/
structure RioBlankNode where
  id : String
deriving DecidableEq

/-- Modelled from the spec: the rio interchange literal. -/
structure RioLiteral where
  value : String
  language : Option String
  datatype : Option String
deriving DecidableEq

/-- Modelled from the spec: the rio interchange named-or-blank union. -/
inductive RioNamedOrBlankNode where
  | NamedNode (node : RioNamedNode)
  | BlankNode (node : RioBlankNode)
deriving DecidableEq

/-- Modelled from the spec: the rio interchange term union. -/
inductive RioTerm where
  | NamedNode (node : RioNamedNode)
  | BlankNode (node : RioBlankNode)
  | Literal (literal : RioLiteral)
deriving DecidableEq

/-- Modelled from the spec: the rio interchange triple. -/
structure RioTriple where
  subject : RioNamedOrBlankNode
  predicate : RioNamedNode
  object : RioTerm
deriving DecidableEq

/-- Modelled from the spec: the rio interchange quad; its graph name is an
option, with `none` standing for the default graph. -/
structure RioQuad where
  subject : RioNamedOrBlankNode
  predicate : RioNamedNode
  object : RioTerm
  graph_name : Option RioNamedOrBlankNode
deriving DecidableEq

/-- Modelled from the spec: `From<NamedNodeRef> for rio::NamedNode`
preserves the payload exactly. -/
def RioNamedNode.fromRef (node : NamedNodeRef) : RioNamedNode :=
  ⟨node.iri⟩

/-- Modelled from the spec: `From<BlankNodeRef> for rio::BlankNode`. -/
def RioBlankNode.fromRef (node : BlankNodeRef) : RioBlankNode :=
  ⟨node.id⟩

/-- Modelled from the spec: `From<LiteralRef> for rio::Literal`. -/
def RioLiteral.fromRef (literal : LiteralRef) : RioLiteral :=
  ⟨literal.value, literal.language, literal.datatype⟩

/-- `From<NamedOrBlankNodeRef> for rio::NamedOrBlankNode` (triple.rs
lines 137-144). -/
def RioNamedOrBlankNode.fromRef : NamedOrBlankNodeRef → RioNamedOrBlankNode
  | .NamedNode node => .NamedNode (RioNamedNode.fromRef node)
  | .BlankNode node => .BlankNode (RioBlankNode.fromRef node)

/-- `From<TermRef> for rio::Term` (triple.rs lines 347-355). -/
def RioTerm.fromRef : TermRef → RioTerm
  | .NamedNode node => .NamedNode (RioNamedNode.fromRef node)
  | .BlankNode node => .BlankNode (RioBlankNode.fromRef node)
  | .Literal literal => .Literal (RioLiteral.fromRef literal)

/-- `From<TripleRef> for rio::Triple` (triple.rs lines 503-511). -/
def RioTriple.fromRef (t : TripleRef) : RioTriple :=
  ⟨RioNamedOrBlankNode.fromRef t.subject, RioNamedNode.fromRef t.predicate,
    RioTerm.fromRef t.object⟩

/-- `From<GraphNameRef> for Option<rio::NamedOrBlankNode>` (triple.rs
lines 730-738). -/
def RioNamedOrBlankNode.optionFromGraphNameRef :
    GraphNameRef → Option RioNamedOrBlankNode
  | .NamedNode node => some (.NamedNode (RioNamedNode.fromRef node))
  | .BlankNode node => some (.BlankNode (RioBlankNode.fromRef node))
  | .DefaultGraph => none

/-- `From<QuadRef> for rio::Quad` (triple.rs lines 918-927). -/
def RioQuad.fromRef (q : QuadRef) : RioQuad :=
  ⟨RioNamedOrBlankNode.fromRef q.subject, RioNamedNode.fromRef q.predicate,
    RioTerm.fromRef q.object,
    RioNamedOrBlankNode.optionFromGraphNameRef q.graph_name⟩

/-- Modelled from the spec: rendering of a rio IRI node. -/
def RioNamedNode.display (node : RioNamedNode) : String :=
  "<" ++ node.iri ++ ">"

/-- Modelled from the spec: rendering of a rio blank node. -/
def RioBlankNode.display (node : RioBlankNode) : String :=
  "_:" ++ node.id

/-- Modelled from the spec: rendering of a rio literal. -/
def RioLiteral.display (literal : RioLiteral) : String :=
  "\"" ++ literal.value ++ "\"" ++
    (match literal.language with
      | some tag => "@" ++ tag
      | none =>
        match literal.datatype with
          | some dt => "^^<" ++ dt ++ ">"
          | none => "")

/-- Modelled from the spec: rendering of a rio named-or-blank node
delegates to the active variant. -/
def RioNamedOrBlankNode.display : RioNamedOrBlankNode → String
  | .NamedNode node => node.display
  | .BlankNode node => node.display

/-- Modelled from the spec: rendering of a rio term delegates to the
active variant. -/
def RioTerm.display : RioTerm → String
  | .NamedNode node => node.display
  | .BlankNode node => node.display
  | .Literal literal => literal.display

/-- Modelled from the spec: a rio triple renders subject, predicate and
object separated by single spaces (interchange grammar scenario). -/
def RioTriple.display (t : RioTriple) : String :=
  t.subject.display ++ " " ++ t.predicate.display ++ " " ++ t.object.display

/-- Modelled from the spec: a rio quad renders the triple part, then the
graph name when one is present; the default graph is omitted. -/
def RioQuad.display (q : RioQuad) : String :=
  q.subject.display ++ " " ++ q.predicate.display ++ " " ++ q.object.display ++
    (match q.graph_name with
      | some name => " " ++ name.display
      | none => "")

/-- `Display for NamedOrBlankNodeRef` (triple.rs lines 92-99): delegates
to the active variant's primitive rendering. -/
def NamedOrBlankNodeRef.display : NamedOrBlankNodeRef → String
  | .NamedNode node => node.display
  | .BlankNode node => node.display

/-- `Display for NamedOrBlankNode` (triple.rs lines 32-36): renders as its
view. -/
def NamedOrBlankNode.display (node : NamedOrBlankNode) : String :=
  node.as_ref.display

/-- `Display for TermRef` (triple.rs lines 274-282). -/
def TermRef.display : TermRef → String
  | .NamedNode node => node.display
  | .BlankNode node => node.display
  | .Literal literal => literal.display

/-- `Display for Term` (triple.rs lines 177-181). -/
def Term.display (term : Term) : String :=
  term.as_ref.display

/-- `Display for GraphNameRef` (triple.rs lines 649-657): the node
variants delegate to the primitive rendering and the default graph
renders as the bare token `DEFAULT`. -/
def GraphNameRef.display : GraphNameRef → String
  | .NamedNode node => node.display
  | .BlankNode node => node.display
  | .DefaultGraph => "DEFAULT"

/-- `Display for GraphName` (triple.rs lines 544-548): renders as its
view. -/
def GraphName.display (name : GraphName) : String :=
  name.as_ref.display

/-- `Display for TripleRef` (triple.rs lines 485-489): formats the
converted rio triple. -/
def TripleRef.display (t : TripleRef) : String :=
  (RioTriple.fromRef t).display

/-- `Display for Triple` (triple.rs lines 433-437): renders as its view. -/
def Triple.display (t : Triple) : String :=
  t.as_ref.display

/-- `Display for QuadRef` (triple.rs lines 890-894): formats the converted
rio quad. -/
def QuadRef.display (q : QuadRef) : String :=
  (RioQuad.fromRef q).display

/-- `Display for Quad` (triple.rs lines 832-836): renders as its view. -/
def Quad.display (q : Quad) : String :=
  q.as_ref.display

/-- C4: the Display output of a `Triple` or `Quad` (owned or borrowed) is
character-for-character the Display output of its rio interchange
counterpart obtained through the conversion boundary: for owned values
the boundary is `as_ref` followed by the rio conversion. -/
theorem display_agrees_with_rio_counterpart :
    (∀ t : TripleRef, t.display = (RioTriple.fromRef t).display) ∧
    (∀ t : Triple, t.display = (RioTriple.fromRef t.as_ref).display) ∧
    (∀ q : QuadRef, q.display = (RioQuad.fromRef q).display) ∧
    (∀ q : Quad, q.display = (RioQuad.fromRef q.as_ref).display) :=
  ⟨fun _ => rfl, fun _ => rfl, fun _ => rfl, fun _ => rfl⟩

/-- C6: the default graph renders exactly as the string `DEFAULT` at both
flavors, while the node variants of `GraphName` render exactly as their
underlying primitive renders, with nothing added. -/
theorem graphName_display_default_and_delegation :
    GraphName.DefaultGraph.display = "DEFAULT" ∧
    GraphNameRef.DefaultGraph.display = "DEFAULT" ∧
    (∀ n : NamedNode, (GraphName.NamedNode n).display = n.display) ∧
    (∀ b : BlankNode, (GraphName.BlankNode b).display = b.display) ∧
    (∀ n : NamedNodeRef, (GraphNameRef.NamedNode n).display = n.display) ∧
    (∀ b : BlankNodeRef, (GraphNameRef.BlankNode b).display = b.display) :=
  ⟨rfl, rfl, fun _ => rfl, fun _ => rfl, fun _ => rfl, fun _ => rfl⟩

example :
    ((Triple.new (.BlankNode ⟨"b1"⟩) ⟨"http://ex/p"⟩
        (.Literal ⟨"v", none, none⟩)).in_graph
        (.NamedNode ⟨"http://ex/g"⟩)).display =
      "_:b1 <http://ex/p> \"v\" <http://ex/g>" := by
  decide

example : (GraphName.DefaultGraph).display = "DEFAULT" := by decide

lemma nobn_as_ref_into_owned_aux (x : NamedOrBlankNode) :
    x.as_ref.into_owned = x := by
  cases x <;> rfl

lemma term_as_ref_into_owned_aux (x : Term) : x.as_ref.into_owned = x := by
  cases x <;> rfl

lemma graphName_as_ref_into_owned_aux (x : GraphName) : x.as_ref.into_owned = x := by
  cases x <;> rfl

lemma triple_as_ref_into_owned_aux (t : Triple) : t.as_ref.into_owned = t := by
  cases t with
  | mk s p o =>
    simp [Triple.as_ref, TripleRef.into_owned, nobn_as_ref_into_owned_aux,
      term_as_ref_into_owned_aux]
    rfl

lemma quad_as_ref_into_owned_aux (q : Quad) : q.as_ref.into_owned = q := by
  cases q with
  | mk s p o g =>
    simp [Quad.as_ref, QuadRef.into_owned, nobn_as_ref_into_owned_aux,
      term_as_ref_into_owned_aux, graphName_as_ref_into_owned_aux]
    rfl

/-- C3: for each of the five owned types, converting to the borrowed twin
with `as_ref` and back with `into_owned` is the identity, preserving the
active variant and every payload exactly. -/
theorem into_owned_as_ref_roundtrip :
    (∀ x : NamedOrBlankNode, x.as_ref.into_owned = x) ∧
    (∀ x : Term, x.as_ref.into_owned = x) ∧
    (∀ t : Triple, t.as_ref.into_owned = t) ∧
    (∀ g : GraphName, g.as_ref.into_owned = g) ∧
    (∀ q : Quad, q.as_ref.into_owned = q) :=
  ⟨nobn_as_ref_into_owned_aux, term_as_ref_into_owned_aux,
    triple_as_ref_into_owned_aux, graphName_as_ref_into_owned_aux,
    quad_as_ref_into_owned_aux⟩

/-- Models the combination step of a derived `Hash` implementation: the
running state is mixed with the next value modulo the 64-bit word size. -/
def hashCombine (a b : Nat) : Nat :=
  (a * 1000003 + b) % 2 ^ 64

/-- Models the standard string hashing the derived `Hash` impls feed their
textual payloads through. -/
def stringHashModel (s : String) : Nat :=
  s.foldl (fun h c => hashCombine h c.toNat) 5381

/-- Hash of an optional string component of a literal. -/
def optionStringHash : Option String → Nat
  | none => 0
  | some s => hashCombine 1 (stringHashModel s)

/-- Hash model for the owned IRI node. -/
def NamedNode.hash (n : NamedNode) : Nat :=
  stringHashModel n.iri

/-- Hash model for the borrowed IRI node. -/
def NamedNodeRef.hash (n : NamedNodeRef) : Nat :=
  stringHashModel n.iri

/-- Hash model for the owned blank node. -/
def BlankNode.hash (n : BlankNode) : Nat :=
  stringHashModel n.id

/-- Hash model for the borrowed blank node. -/
def BlankNodeRef.hash (n : BlankNodeRef) : Nat :=
  stringHashModel n.id

/-- Hash model for the owned literal. -/
def Literal.hash (l : Literal) : Nat :=
  hashCombine (hashCombine (stringHashModel l.value) (optionStringHash l.language))
    (optionStringHash l.datatype)

/-- Hash model for the borrowed literal. -/
def LiteralRef.hash (l : LiteralRef) : Nat :=
  hashCombine (hashCombine (stringHashModel l.value) (optionStringHash l.language))
    (optionStringHash l.datatype)

/-- Derived `Hash` model for `NamedOrBlankNode`: the variant tag is hashed
before the payload (triple.rs line 9 `derive Hash`). -/
def NamedOrBlankNode.hash : NamedOrBlankNode → Nat
  | .NamedNode n => hashCombine 0 n.hash
  | .BlankNode n => hashCombine 1 n.hash

/-- Derived `Hash` model for `NamedOrBlankNodeRef` (triple.rs line 63). -/
def NamedOrBlankNodeRef.hash : NamedOrBlankNodeRef → Nat
  | .NamedNode n => hashCombine 0 n.hash
  | .BlankNode n => hashCombine 1 n.hash

/-- Derived `Hash` model for `Term` (triple.rs line 148). -/
def Term.hash : Term → Nat
  | .NamedNode n => hashCombine 0 n.hash
  | .BlankNode n => hashCombine 1 n.hash
  | .Literal l => hashCombine 2 l.hash

/-- Derived `Hash` model for `TermRef` (triple.rs line 236). -/
def TermRef.hash : TermRef → Nat
  | .NamedNode n => hashCombine 0 n.hash
  | .BlankNode n => hashCombine 1 n.hash
  | .Literal l => hashCombine 2 l.hash

/-- Derived `Hash` model for `GraphName` (triple.rs line 515). -/
def GraphName.hash : GraphName → Nat
  | .NamedNode n => hashCombine 0 n.hash
  | .BlankNode n => hashCombine 1 n.hash
  | .DefaultGraph => hashCombine 2 0

/-- Derived `Hash` model for `GraphNameRef` (triple.rs line 611). -/
def GraphNameRef.hash : GraphNameRef → Nat
  | .NamedNode n => hashCombine 0 n.hash
  | .BlankNode n => hashCombine 1 n.hash
  | .DefaultGraph => hashCombine 2 0

/-- Derived `Hash` model for `Triple`: fields are hashed in order
(triple.rs line 358). -/
def Triple.hash (t : Triple) : Nat :=
  hashCombine (hashCombine t.subject.hash t.predicate.hash) t.object.hash

/-- Derived `Hash` model for `TripleRef` (triple.rs line 440). -/
def TripleRef.hash (t : TripleRef) : Nat :=
  hashCombine (hashCombine t.subject.hash t.predicate.hash) t.object.hash

/-- Derived `Hash` model for `Quad` (triple.rs line 741). -/
def Quad.hash (q : Quad) : Nat :=
  hashCombine (hashCombine (hashCombine q.subject.hash q.predicate.hash) q.object.hash)
    q.graph_name.hash

/-- Derived `Hash` model for `QuadRef` (triple.rs line 849). -/
def QuadRef.hash (q : QuadRef) : Nat :=
  hashCombine (hashCombine (hashCombine q.subject.hash q.predicate.hash) q.object.hash)
    q.graph_name.hash

/-- Same active variant with equal payload, for `NamedOrBlankNode`
(derived `PartialEq`, triple.rs line 9). -/
def NamedOrBlankNode.variantPayloadEq : NamedOrBlankNode → NamedOrBlankNode → Prop
  | .NamedNode a, .NamedNode b => a = b
  | .BlankNode a, .BlankNode b => a = b
  | _, _ => False

/-- Same active variant with equal payload, for `NamedOrBlankNodeRef`. -/
def NamedOrBlankNodeRef.variantPayloadEq :
    NamedOrBlankNodeRef → NamedOrBlankNodeRef → Prop
  | .NamedNode a, .NamedNode b => a = b
  | .BlankNode a, .BlankNode b => a = b
  | _, _ => False

/-- Same active variant with equal payload, for `Term`. -/
def Term.variantPayloadEq : Term → Term → Prop
  | .NamedNode a, .NamedNode b => a = b
  | .BlankNode a, .BlankNode b => a = b
  | .Literal a, .Literal b => a = b
  | _, _ => False

/-- Same active variant with equal payload, for `TermRef`. -/
def TermRef.variantPayloadEq : TermRef → TermRef → Prop
  | .NamedNode a, .NamedNode b => a = b
  | .BlankNode a, .BlankNode b => a = b
  | .Literal a, .Literal b => a = b
  | _, _ => False

/-- Same active variant with equal payload, for `GraphName`. -/
def GraphName.variantPayloadEq : GraphName → GraphName → Prop
  | .NamedNode a, .NamedNode b => a = b
  | .BlankNode a, .BlankNode b => a = b
  | .DefaultGraph, .DefaultGraph => True
  | _, _ => False

/-- Same active variant with equal payload, for `GraphNameRef`. -/
def GraphNameRef.variantPayloadEq : GraphNameRef → GraphNameRef → Prop
  | .NamedNode a, .NamedNode b => a = b
  | .BlankNode a, .BlankNode b => a = b
  | .DefaultGraph, .DefaultGraph => True
  | _, _ => False

/-- Fieldwise equality for `Triple` (derived `PartialEq`, line 358). -/
def Triple.variantPayloadEq (a b : Triple) : Prop :=
  a.subject = b.subject ∧ a.predicate = b.predicate ∧ a.object = b.object

/-- Fieldwise equality for `TripleRef`. -/
def TripleRef.variantPayloadEq (a b : TripleRef) : Prop :=
  a.subject = b.subject ∧ a.predicate = b.predicate ∧ a.object = b.object

/-- Fieldwise equality for `Quad` (derived `PartialEq`, line 741). -/
def Quad.variantPayloadEq (a b : Quad) : Prop :=
  a.subject = b.subject ∧ a.predicate = b.predicate ∧ a.object = b.object ∧
    a.graph_name = b.graph_name

/-- Fieldwise equality for `QuadRef`. -/
def QuadRef.variantPayloadEq (a b : QuadRef) : Prop :=
  a.subject = b.subject ∧ a.predicate = b.predicate ∧ a.object = b.object ∧
    a.graph_name = b.graph_name

/-- C8: on all five aggregate types and their borrowed twins, equal values
hash equally, and equality holds exactly when the two values have the same
active variant and equal payloads. -/
theorem eq_hash_consistency :
    ((∀ a b : NamedOrBlankNode, a = b → a.hash = b.hash) ∧
      (∀ a b : NamedOrBlankNode, a = b ↔ a.variantPayloadEq b)) ∧
    ((∀ a b : Term, a = b → a.hash = b.hash) ∧
      (∀ a b : Term, a = b ↔ a.variantPayloadEq b)) ∧
    ((∀ a b : Triple, a = b → a.hash = b.hash) ∧
      (∀ a b : Triple, a = b ↔ a.variantPayloadEq b)) ∧
    ((∀ a b : GraphName, a = b → a.hash = b.hash) ∧
      (∀ a b : GraphName, a = b ↔ a.variantPayloadEq b)) ∧
    ((∀ a b : Quad, a = b → a.hash = b.hash) ∧
      (∀ a b : Quad, a = b ↔ a.variantPayloadEq b)) ∧
    ((∀ a b : NamedOrBlankNodeRef, a = b → a.hash = b.hash) ∧
      (∀ a b : NamedOrBlankNodeRef, a = b ↔ a.variantPayloadEq b)) ∧
    ((∀ a b : TermRef, a = b → a.hash = b.hash) ∧
      (∀ a b : TermRef, a = b ↔ a.variantPayloadEq b)) ∧
    ((∀ a b : TripleRef, a = b → a.hash = b.hash) ∧
      (∀ a b : TripleRef, a = b ↔ a.variantPayloadEq b)) ∧
    ((∀ a b : GraphNameRef, a = b → a.hash = b.hash) ∧
      (∀ a b : GraphNameRef, a = b ↔ a.variantPayloadEq b)) ∧
    ((∀ a b : QuadRef, a = b → a.hash = b.hash) ∧
      (∀ a b : QuadRef, a = b ↔ a.variantPayloadEq b)) := by
  refine ⟨⟨fun a b h => by rw [h], fun a b => ?_⟩,
    ⟨fun a b h => by rw [h], fun a b => ?_⟩,
    ⟨fun a b h => by rw [h], fun a b => ?_⟩,
    ⟨fun a b h => by rw [h], fun a b => ?_⟩,
    ⟨fun a b h => by rw [h], fun a b => ?_⟩,
    ⟨fun a b h => by rw [h], fun a b => ?_⟩,
    ⟨fun a b h => by rw [h], fun a b => ?_⟩,
    ⟨fun a b h => by rw [h], fun a b => ?_⟩,
    ⟨fun a b h => by rw [h], fun a b => ?_⟩,
    ⟨fun a b h => by rw [h], fun a b => ?_⟩⟩
  all_goals cases a <;> cases b <;>
    simp [NamedOrBlankNode.variantPayloadEq, Term.variantPayloadEq,
      Triple.variantPayloadEq, GraphName.variantPayloadEq,
      Quad.variantPayloadEq, NamedOrBlankNodeRef.variantPayloadEq,
      TermRef.variantPayloadEq, TripleRef.variantPayloadEq,
      GraphNameRef.variantPayloadEq, QuadRef.variantPayloadEq]

/-- Witness for C8 at concrete inputs: the hash-consistency implication is
discharged at a concrete pair of equal values, and the structural equality
characterization is instantiated on the default graph. -/
theorem eq_hash_consistency_witness :
    NamedOrBlankNode.hash (.NamedNode ⟨"http://example.com/s"⟩) =
      NamedOrBlankNode.hash (.NamedNode ⟨"http://example.com/s"⟩) ∧
    (GraphName.DefaultGraph = GraphName.DefaultGraph ↔
      GraphName.DefaultGraph.variantPayloadEq GraphName.DefaultGraph) :=
  ⟨eq_hash_consistency.1.1 _ _ rfl,
    (eq_hash_consistency.2.2.2.1.2 GraphName.DefaultGraph GraphName.DefaultGraph)⟩
